import Mathlib

/-!
Verification development for the multiclaude orchestration daemon.

The repository ships tests for its State Store (internal/state), Instance
Guard (internal/daemon pid file) and IPC socket layer (internal/socket),
while the implementation files themselves are absent from the source tree;
those components are modelled here from the specification (each such
definition carries a doc comment starting with "Modelled from the spec:").
The diagnostics collector (package diagnostics) is present in the source
and is embedded faithfully.
-/

namespace Multiclaude

/-- Agent role, the fixed closed set from the data model (and the
`AgentType*` constants used by the state tests and diagnostics code). -/
inductive AgentType where
  | worker
  | supervisor
  | mergeQueue
  | review
  | workspace
deriving DecidableEq, Repr

/-- Agent record: role, worktree path, tmux window, session id, OS pid,
task text, creation timestamp, ready-for-cleanup flag (fields as exercised
by state_test.go). Timestamps are abstracted to naturals. -/
structure Agent where
  type : AgentType
  worktreePath : String
  tmuxWindow : String
  sessionID : String
  pid : Nat
  task : String
  createdAt : Nat
  readyForCleanup : Bool
deriving DecidableEq, Repr

/-- Repository record: origin URL, hosting tmux session, and the
agent-name-to-Agent mapping, represented as an association list. -/
structure Repository where
  githubURL : String
  tmuxSession : String
  agents : List (String × Agent)
deriving DecidableEq, Repr

/-- The whole registry: mapping from repository name to Repository. -/
structure StateReg where
  repos : List (String × Repository)
deriving DecidableEq, Repr

/-- Lookup of a key in an association list. -/
def lookupKey (k : String) : List (String × α) → Option α
  | [] => none
  | (k₁, v) :: t => if k₁ = k then some v else lookupKey k t

/-- Replace the value stored at a key, leaving other entries alone. -/
def setKey (k : String) (v : α) : List (String × α) → List (String × α)
  | [] => []
  | (k₁, v₁) :: t => if k₁ = k then (k₁, v) :: t else (k₁, v₁) :: setKey k v t

/-- Delete every entry with the given key. -/
def removeKey (k : String) : List (String × α) → List (String × α)
  | [] => []
  | (k₁, v₁) :: t => if k₁ = k then removeKey k t else (k₁, v₁) :: removeKey k t

theorem lookupKey_append_self (k : String) (v : α) :
    ∀ l : List (String × α), lookupKey k l = none →
      lookupKey k (l ++ [(k, v)]) = some v := by
  intro l
  induction l with
  | nil => intro _; simp [lookupKey]
  | cons p t ih =>
    intro h
    obtain ⟨k₁, v₁⟩ := p
    by_cases hk : k₁ = k
    · simp [lookupKey, hk] at h
    · simp [lookupKey, hk] at h ⊢
      exact ih h

theorem lookupKey_removeKey_self (k : String) :
    ∀ l : List (String × α), lookupKey k (removeKey k l) = none := by
  intro l
  induction l with
  | nil => simp [removeKey, lookupKey]
  | cons p t ih =>
    obtain ⟨k₁, v₁⟩ := p
    by_cases hk : k₁ = k
    · simp [removeKey, hk, ih]
    · simp [removeKey, lookupKey, hk, ih]

/-- Error taxonomy of the spec (section 7), restricted to what the State
Store, Instance Guard and socket layer raise. -/
inductive StoreErr where
  | notFound
  | alreadyExists
  | decodeError
deriving DecidableEq, Repr

/-- Contents found at the snapshot path: a decodable snapshot or bytes that
are not a valid snapshot. -/
inductive FileData where
  | valid (r : StateReg)
  | invalid
deriving DecidableEq, Repr

/-- Modelled from the spec: `Load(path)` of internal/state/state.go (absent
from the tree; only state_test.go is present). A missing file yields an
empty-but-valid registry and no error; an existing file that is not a valid
snapshot yields a DecodeError; a valid snapshot is returned as is. The
argument is the content of the snapshot path (`none` = no file). -/
def load : Option FileData → Except StoreErr StateReg
  | none => .ok ⟨[]⟩
  | some (.valid r) => .ok r
  | some .invalid => .error .decodeError

/-- Modelled from the spec: `AddRepo(name, repo)` of state.go. Fails with
AlreadyExists if the name is taken, otherwise registers the repository. -/
def addRepo (reg : StateReg) (name : String) (repo : Repository) :
    Except StoreErr StateReg :=
  match lookupKey name reg.repos with
  | some _ => .error .alreadyExists
  | none => .ok ⟨reg.repos ++ [(name, repo)]⟩

/-- Modelled from the spec: `AddAgent(repo, name, agent)` of state.go. Fails
with NotFound if the repository is absent, AlreadyExists if the agent name
is taken within that repository, otherwise registers the agent. -/
def addAgent (reg : StateReg) (repoName agentName : String) (a : Agent) :
    Except StoreErr StateReg :=
  match lookupKey repoName reg.repos with
  | none => .error .notFound
  | some rp =>
    match lookupKey agentName rp.agents with
    | some _ => .error .alreadyExists
    | none =>
      .ok ⟨setKey repoName { rp with agents := rp.agents ++ [(agentName, a)] }
            reg.repos⟩

/-- Modelled from the spec: `RemoveRepo(name)` of state.go, an idempotent
removal that drops the repository record and, with it, all its agents. -/
def removeRepo (reg : StateReg) (name : String) : StateReg :=
  ⟨removeKey name reg.repos⟩

/-- Modelled from the spec: `ListAgents(repo)` of state.go, a lookup that
fails with NotFound when the repository is absent (never an empty list for
a missing repository) and otherwise returns the repository's agents. -/
def listAgents (reg : StateReg) (repoName : String) :
    Except StoreErr (List (String × Agent)) :=
  match lookupKey repoName reg.repos with
  | none => .error .notFound
  | some rp => .ok rp.agents

/-- In-memory registry paired with the content currently at the snapshot
path on disk. -/
structure Store where
  reg : StateReg
  file : Option FileData
deriving DecidableEq, Repr

/-- Modelled from the spec: `New(path)` of state.go — a fresh store with an
empty registry and no snapshot file written yet. -/
def freshStore : Store := ⟨⟨[]⟩, none⟩

/-- A mutating State Store call: AddRepository or AddAgent. -/
inductive Cmd where
  | addRepoCmd (name : String) (repo : Repository)
  | addAgentCmd (repoName agentName : String) (a : Agent)
deriving DecidableEq, Repr

/-- Modelled from the spec: one mutating call against the store. Every
successful mutation is followed by a full-snapshot durable write of the
new registry; a failed call writes nothing. -/
def runCmd (st : Store) : Cmd → Except StoreErr Store
  | .addRepoCmd n r =>
    match addRepo st.reg n r with
    | .error e => .error e
    | .ok reg₁ => .ok ⟨reg₁, some (.valid reg₁)⟩
  | .addAgentCmd rn an a =>
    match addAgent st.reg rn an a with
    | .error e => .error e
    | .ok reg₁ => .ok ⟨reg₁, some (.valid reg₁)⟩

/-- Run a sequence of mutating calls, stopping at the first failure. -/
def runCmds (st : Store) : List Cmd → Except StoreErr Store
  | [] => .ok st
  | c :: cs =>
    match runCmd st c with
    | .error e => .error e
    | .ok st₁ => runCmds st₁ cs

/-- One mutating call where a failure leaves the store untouched and
reports the error alongside it (the in-place view of `runCmd`). -/
def runCmdTotal (st : Store) (c : Cmd) : Store × Option StoreErr :=
  match runCmd st c with
  | .error e => (st, some e)
  | .ok st₁ => (st₁, none)

/-- Disk state around one save: content of the snapshot path (`primary`)
and of the temporary path `path + ".tmp"` (`tmp`). -/
structure DiskState where
  primary : Option FileData
  tmp : Option FileData
deriving DecidableEq, Repr

/-- Modelled from the spec: the atomic-save protocol of state.go (section 5
of the spec; TestStateAtomicSave checks the `.tmp` path is gone afterwards).
A save of registry `r` writes the full snapshot to the temporary path and
then renames it over the primary path. The trace lists every disk state a
crash or a concurrent reader could observe: the initial state, the
temporary file mid-write (torn), the temporary file complete, and the
renamed final state. -/
def saveTrace (d : DiskState) (r : StateReg) : List DiskState :=
  [ d,
    ⟨d.primary, some .invalid⟩,
    ⟨d.primary, some (.valid r)⟩,
    ⟨some (.valid r), none⟩ ]

/-- Instance Guard failure: another live daemon holds the marker. -/
inductive GuardErr where
  | alreadyRunning
deriving DecidableEq, Repr

/-- Modelled from the spec: `IsRunning()` of internal/daemon/pid.go (absent
from the tree; only fork_test.go's daemon tests are present). `live` is the
zero-effect OS process-table probe; `marker` is the PID marker content
(`none` = no marker file). Returns the running flag and the pid read, with
pid 0 when no marker exists. -/
def isRunning (live : Nat → Bool) (marker : Option Nat) : Bool × Nat :=
  match marker with
  | none => (false, 0)
  | some p => (live p, p)

/-- Modelled from the spec: `CheckAndClaim()` of pid.go. Succeeds and writes
the calling process id when no marker exists or the recorded process is not
live (stale reclaim); fails with AlreadyRunning when the recorded process
is live. Returns the new marker content on success. -/
def checkAndClaim (live : Nat → Bool) (self : Nat) (marker : Option Nat) :
    Except GuardErr (Option Nat) :=
  match marker with
  | none => .ok (some self)
  | some p => if live p then .error .alreadyRunning else .ok (some self)

/-- Socket-layer errors: failure to bind, or no listener to connect to. -/
inductive SockErr where
  | bindError
  | connectionError
deriving DecidableEq, Repr

/-- State of the socket path: whether a socket file exists there and
whether a live listener currently holds the path. -/
structure SockFS where
  file : Bool
  listener : Bool
deriving DecidableEq, Repr

/-- Modelled from the spec: `Server.Start()` of internal/socket/socket.go
(absent from the tree; only its tests are present). Start removes any
stale socket file left at the path before binding; binding fails only when
a live listener already holds the path, and on success the server's own
socket file exists and it is the live listener. -/
def serverStart (fs : SockFS) : Except SockErr SockFS :=
  let cleaned : SockFS := ⟨false, fs.listener⟩
  if cleaned.listener then .error .bindError
  else .ok ⟨true, true⟩

/-- An IPC request: command name and string-keyed arguments (the dynamic
`any` values of the transport are abstracted to strings, which none of the
claims inspect). -/
structure Request where
  command : String
  args : List (String × String)
deriving DecidableEq, Repr

/-- An IPC response: success flag, data payload, error text. -/
structure Response where
  success : Bool
  data : String
  error : String
deriving DecidableEq, Repr

/-- Modelled from the spec: `Client.Send(req)` of socket.go. The listener
at the socket path is `none` when no server is present, otherwise the
server's handler. With no listener the dial fails and Send returns a
ConnectionError and no response; otherwise it writes one request, reads
the one response the handler produced, and closes. -/
def clientSend (listener : Option (Request → Response)) (req : Request) :
    Except SockErr Response :=
  match listener with
  | none => .error .connectionError
  | some h => .ok (h req)

/-- Whether `pat` occurs as a contiguous segment of `l` (the behaviour of
Go's strings.Contains on the underlying characters). -/
def containsSeg (pat : List Char) : List Char → Bool
  | [] => pat.isEmpty
  | c :: t => pat.isPrefixOf (c :: t) || containsSeg pat t

/-- strings.Contains lifted to Lean strings via their character lists. -/
def strContains (s pat : String) : Bool :=
  containsSeg pat.data s.data

/-- The fixed `importantVars` list of `Collector.collectEnvironment`
(package diagnostics). -/
def importantVars : List String :=
  [ "MULTICLAUDE_TEST_MODE",
    "CLAUDE_CONFIG_DIR",
    "CLAUDE_CODE_OAUTH_TOKEN",
    "CLAUDE_PROJECT_DIR",
    "PATH",
    "SHELL",
    "TERM",
    "TMUX" ]

/-- Lower-casing of one character (ASCII range; the variable names this is
applied to are all ASCII, where Go's strings.ToLower acts exactly so). -/
def lowerChar (c : Char) : Char :=
  if 65 ≤ c.toNat ∧ c.toNat ≤ 90 then Char.ofNat (c.toNat + 32) else c

/-- strings.ToLower on the variable names (ASCII). -/
def strToLower (s : String) : String :=
  ⟨s.data.map lowerChar⟩

/-- The redaction test of collectEnvironment: the lower-cased variable name
contains "token" or "key". -/
def isSensitiveVar (n : String) : Bool :=
  strContains (strToLower n) "token" || strContains (strToLower n) "key"

/-- The env-var collection loop of collectEnvironment, generalised over the
list of names it walks. `env` is os.Getenv: unset variables read as "".
Variables with an empty value are skipped; sensitive ones are reported as
"[REDACTED]"; the rest are reported with their value. -/
def collectFrom (names : List String) (env : String → String) :
    List (String × String) :=
  names.filterMap (fun n =>
    if env n = "" then none
    else if isSensitiveVar n then some (n, "[REDACTED]")
    else some (n, env n))

/-- The `Variables` map built by `Collector.collectEnvironment` of the
diagnostics package, as the association list in walk order (the Go map's
content is exactly this set of pairs; the names are distinct). -/
def collectEnvVars (env : String → String) : List (String × String) :=
  collectFrom importantVars env

/-- C4: `Load(path)` returns an empty-but-valid registry (zero
repositories) and no error when no file exists at the path, and returns a
DecodeError when a file exists there but is not a valid snapshot. -/
theorem load_missing_and_invalid :
    load none = Except.ok ⟨[]⟩ ∧
    load (some FileData.invalid) = Except.error StoreErr.decodeError :=
  ⟨rfl, rfl⟩

/-- C9: IPC Client Send fails with a ConnectionError (an error, no
response) whenever no listener is present at the socket path. -/
theorem clientSend_no_listener (req : Request) :
    clientSend none req = Except.error SockErr.connectionError :=
  rfl

/-- C8: IPC Server Start succeeds even when a stale socket file exists at
the socket path, whenever no live listener holds the path: the stale file
is removed before binding rather than causing an address-in-use failure. -/
theorem serverStart_stale_socket (fs : SockFS) (h : fs.listener = false) :
    serverStart fs = Except.ok ⟨true, true⟩ := by
  simp [serverStart, h]

theorem serverStart_stale_socket_witness :
    serverStart ⟨true, false⟩ = Except.ok ⟨true, true⟩ :=
  serverStart_stale_socket ⟨true, false⟩ rfl

/-- C3: CheckAndClaim succeeds and writes the caller's pid when no marker
exists, or when the marker's pid is not a live process (stale reclaim); it
fails with AlreadyRunning when the marker's pid is a live process. -/
theorem checkAndClaim_spec (live : Nat → Bool) (self : Nat)
    (marker : Option Nat) :
    (marker = none → checkAndClaim live self marker = Except.ok (some self)) ∧
    (∀ p, marker = some p → live p = false →
      checkAndClaim live self marker = Except.ok (some self)) ∧
    (∀ p, marker = some p → live p = true →
      checkAndClaim live self marker = Except.error GuardErr.alreadyRunning) := by
  refine ⟨?_, ?_, ?_⟩
  · intro h; subst h; rfl
  · intro p hp hl; subst hp; simp [checkAndClaim, hl]
  · intro p hp hl; subst hp; simp [checkAndClaim, hl]

/-- Process-table probe of the witness scenario: only pid 1 is live. -/
def liveW : Nat → Bool := fun p => p == 1

theorem checkAndClaim_spec_witness :
    checkAndClaim liveW 5 none = Except.ok (some 5) ∧
    checkAndClaim liveW 5 (some 2) = Except.ok (some 5) ∧
    checkAndClaim liveW 5 (some 1) = Except.error GuardErr.alreadyRunning :=
  ⟨(checkAndClaim_spec liveW 5 none).1 rfl,
   (checkAndClaim_spec liveW 5 (some 2)).2.1 2 rfl (by decide),
   (checkAndClaim_spec liveW 5 (some 1)).2.2 1 rfl (by decide)⟩

/-- C1: the save protocol writes the full snapshot to the temporary path
and renames it into place; at every observable point of the save the
primary path reads as either the prior complete snapshot or the new
complete one (never the torn write, which only ever touches the temporary
path), and once the save completes the temporary file is gone and the
primary path holds the new snapshot. -/
theorem saveTrace_atomic (d : DiskState) (r : StateReg) (r₀ : StateReg)
    (hd : d.primary = some (.valid r₀)) :
    (∀ x ∈ saveTrace d r,
      load x.primary = Except.ok r₀ ∨ load x.primary = Except.ok r) ∧
    (saveTrace d r).getLast? = some ⟨some (.valid r), none⟩ := by
  constructor
  · intro x hx
    simp only [saveTrace, List.mem_cons, List.not_mem_nil, or_false] at hx
    rcases hx with hx | hx | hx | hx <;> subst hx <;>
      simp [load, hd]
  · rfl

/-- Snapshot written by the witness save. -/
def regSaveW : StateReg := ⟨[("test-repo", ⟨"https://github.com/test/repo", "multiclaude-test-repo", []⟩)]⟩

/-- The torn intermediate disk state of the witness save: old snapshot at
the primary path, half-written bytes at the temporary path. -/
def diskTornW : DiskState := ⟨some (.valid ⟨[]⟩), some .invalid⟩

theorem saveTrace_atomic_witness :
    load diskTornW.primary = Except.ok ⟨[]⟩ ∨
    load diskTornW.primary = Except.ok regSaveW :=
  (saveTrace_atomic ⟨some (.valid ⟨[]⟩), none⟩ regSaveW ⟨[]⟩ rfl).1
    diskTornW (by simp [saveTrace, diskTornW])

/-- C7: removing a repository cascades to its agents — for every registry
containing repository r, after RemoveRepository(r) a ListAgents(r) call
fails with NotFound rather than returning an empty list. -/
theorem removeRepo_cascades (reg : StateReg) (r : String) (rp : Repository)
    (_h : lookupKey r reg.repos = some rp) :
    listAgents (removeRepo reg r) r = Except.error StoreErr.notFound := by
  simp [listAgents, removeRepo, lookupKey_removeKey_self]

/-- Agent record used by the store witnesses. -/
def agW : Agent :=
  ⟨.supervisor, "/path/to/worktree", "supervisor", "test-session", 12345, "", 0, false⟩

/-- Repository holding one agent, used by the store witnesses. -/
def rpW : Repository :=
  ⟨"https://github.com/test/repo", "multiclaude-test-repo", [("supervisor", agW)]⟩

theorem removeRepo_cascades_witness :
    listAgents (removeRepo ⟨[("test-repo", rpW)]⟩ "test-repo") "test-repo" =
      Except.error StoreErr.notFound :=
  removeRepo_cascades ⟨[("test-repo", rpW)]⟩ "test-repo" rpW (by decide)

/-- C6: AddAgent fails with NotFound when the repository is absent and with
AlreadyExists when the agent name is taken within it; in both failure cases
the store (registry and snapshot file alike) is left unchanged. -/
theorem addAgent_errors (st : Store) (rn an : String) (a : Agent) :
    (lookupKey rn st.reg.repos = none →
      runCmdTotal st (.addAgentCmd rn an a) = (st, some StoreErr.notFound)) ∧
    (∀ rp x, lookupKey rn st.reg.repos = some rp →
      lookupKey an rp.agents = some x →
      runCmdTotal st (.addAgentCmd rn an a) = (st, some StoreErr.alreadyExists)) := by
  constructor
  · intro h
    simp [runCmdTotal, runCmd, addAgent, h]
  · intro rp x h₁ h₂
    simp [runCmdTotal, runCmd, addAgent, h₁, h₂]

/-- Store of the witnesses: one repository with one agent registered. -/
def stW : Store :=
  ⟨⟨[("test-repo", rpW)]⟩, some (.valid ⟨[("test-repo", rpW)]⟩)⟩

theorem addAgent_errors_witness :
    runCmdTotal freshStore (.addAgentCmd "test-repo" "supervisor" agW) =
      (freshStore, some StoreErr.notFound) ∧
    runCmdTotal stW (.addAgentCmd "test-repo" "supervisor" agW) =
      (stW, some StoreErr.alreadyExists) :=
  ⟨(addAgent_errors freshStore "test-repo" "supervisor" agW).1 rfl,
   (addAgent_errors stW "test-repo" "supervisor" agW).2 rpW agW (by decide) (by decide)⟩

/-- C5: AddRepository(name) followed by AddRepository(name) on the same
store always fails with AlreadyExists on the second call and leaves the
first registration in place. -/
theorem addRepo_duplicate (st st₁ : Store) (n : String) (r₁ r₂ : Repository)
    (h : runCmd st (.addRepoCmd n r₁) = Except.ok st₁) :
    runCmdTotal st₁ (.addRepoCmd n r₂) = (st₁, some StoreErr.alreadyExists) ∧
    lookupKey n st₁.reg.repos = some r₁ := by
  cases hlk : lookupKey n st.reg.repos with
  | some rp => simp [runCmd, addRepo, hlk] at h
  | none =>
    simp [runCmd, addRepo, hlk] at h
    subst h
    have hl := lookupKey_append_self n r₁ st.reg.repos hlk
    exact ⟨by simp [runCmdTotal, runCmd, addRepo, hl], hl⟩

/-- Repository record before any agent is added, used by the witnesses. -/
def rpW0 : Repository := ⟨"https://github.com/test/repo", "multiclaude-test-repo", []⟩

theorem addRepo_duplicate_witness :
    runCmdTotal stW (.addRepoCmd "test-repo" rpW0) =
      (stW, some StoreErr.alreadyExists) ∧
    lookupKey "test-repo" stW.reg.repos = some rpW :=
  addRepo_duplicate
    ⟨⟨[]⟩, none⟩ stW "test-repo" rpW rpW0 (by rfl)

theorem runCmd_ok_file (st st₁ : Store) (c : Cmd)
    (h : runCmd st c = Except.ok st₁) : st₁.file = some (.valid st₁.reg) := by
  cases c with
  | addRepoCmd n r =>
    cases hr : addRepo st.reg n r with
    | error e => simp [runCmd, hr] at h
    | ok reg₁ =>
      simp [runCmd, hr] at h
      subst h
      rfl
  | addAgentCmd rn an a =>
    cases hr : addAgent st.reg rn an a with
    | error e => simp [runCmd, hr] at h
    | ok reg₁ =>
      simp [runCmd, hr] at h
      subst h
      rfl

theorem runCmds_inv (cs : List Cmd) :
    ∀ st st₁, load st.file = Except.ok st.reg →
      runCmds st cs = Except.ok st₁ → load st₁.file = Except.ok st₁.reg := by
  induction cs with
  | nil =>
    intro st st₁ hinv h
    simp [runCmds] at h
    subst h
    exact hinv
  | cons c cs ih =>
    intro st st₁ hinv h
    cases hr : runCmd st c with
    | error e => simp [runCmds, hr] at h
    | ok st₂ =>
      simp only [runCmds, hr] at h
      refine ih st₂ st₁ ?_ h
      rw [runCmd_ok_file st st₂ c hr]
      rfl

/-- C2: for every sequence of AddRepository/AddAgent calls that all succeed
on a fresh State Store, loading the persisted snapshot file afterwards
returns exactly the in-memory registry those calls produced — the same
repositories and agents with equal field values. -/
theorem state_roundTrip (cs : List Cmd) (st₁ : Store)
    (h : runCmds freshStore cs = Except.ok st₁) :
    load st₁.file = Except.ok st₁.reg :=
  runCmds_inv cs freshStore st₁ rfl h

theorem state_roundTrip_witness :
    load stW.file = Except.ok stW.reg :=
  state_roundTrip
    [Cmd.addRepoCmd "test-repo" rpW0, Cmd.addAgentCmd "test-repo" "supervisor" agW]
    stW (by rfl)

theorem collectFrom_cons (m : String) (t : List String) (env : String → String) :
    collectFrom (m :: t) env =
      (if env m = "" then collectFrom t env
       else if isSensitiveVar m then (m, "[REDACTED]") :: collectFrom t env
       else (m, env m) :: collectFrom t env) := by
  by_cases h₁ : env m = "" <;> by_cases h₂ : isSensitiveVar m <;>
    simp [collectFrom, List.filterMap_cons, h₁, h₂]

theorem collectFrom_mem (l : List String) (env : String → String) (n v : String)
    (h : lookupKey n (collectFrom l env) = some v) : n ∈ l ∧ env n ≠ "" := by
  induction l with
  | nil => simp [collectFrom, lookupKey] at h
  | cons m t ih =>
    rw [collectFrom_cons] at h
    by_cases h₁ : env m = ""
    · rw [if_pos h₁] at h
      obtain ⟨hm, hv⟩ := ih h
      exact ⟨List.mem_cons_of_mem m hm, hv⟩
    · rw [if_neg h₁] at h
      by_cases h₂ : isSensitiveVar m
      · rw [if_pos h₂] at h
        by_cases hmn : m = n
        · subst hmn
          exact ⟨List.mem_cons_self m t, h₁⟩
        · simp only [lookupKey, if_neg hmn] at h
          obtain ⟨hm, hv⟩ := ih h
          exact ⟨List.mem_cons_of_mem m hm, hv⟩
      · rw [if_neg h₂] at h
        by_cases hmn : m = n
        · subst hmn
          exact ⟨List.mem_cons_self m t, h₁⟩
        · simp only [lookupKey, if_neg hmn] at h
          obtain ⟨hm, hv⟩ := ih h
          exact ⟨List.mem_cons_of_mem m hm, hv⟩

theorem collectFrom_redacts (l : List String) (env : String → String)
    (n v : String) (hs : isSensitiveVar n = true)
    (h : lookupKey n (collectFrom l env) = some v) : v = "[REDACTED]" := by
  induction l with
  | nil => simp [collectFrom, lookupKey] at h
  | cons m t ih =>
    rw [collectFrom_cons] at h
    by_cases h₁ : env m = ""
    · rw [if_pos h₁] at h
      exact ih h
    · rw [if_neg h₁] at h
      by_cases h₂ : isSensitiveVar m
      · rw [if_pos h₂] at h
        by_cases hmn : m = n
        · simp only [lookupKey, if_pos hmn] at h
          exact (Option.some.inj h).symm
        · simp only [lookupKey, if_neg hmn] at h
          exact ih h
      · rw [if_neg h₂] at h
        by_cases hmn : m = n
        · subst hmn
          exact absurd hs (by simpa using h₂)
        · simp only [lookupKey, if_neg hmn] at h
          exact ih h

theorem collectFrom_indep (l : List String) (env₁ env₂ : String → String)
    (hpub : ∀ n ∈ l, isSensitiveVar n = false → env₁ n = env₂ n)
    (hsec : ∀ n ∈ l, isSensitiveVar n = true → (env₁ n = "" ↔ env₂ n = "")) :
    collectFrom l env₁ = collectFrom l env₂ := by
  induction l with
  | nil => rfl
  | cons m t ih =>
    have iht := ih
      (fun n hn hns => hpub n (List.mem_cons_of_mem m hn) hns)
      (fun n hn hns => hsec n (List.mem_cons_of_mem m hn) hns)
    rw [collectFrom_cons, collectFrom_cons, iht]
    by_cases h₂ : isSensitiveVar m
    · have hiff := hsec m (List.mem_cons_self m t) h₂
      by_cases h₁ : env₁ m = ""
      · rw [if_pos h₁, if_pos (hiff.mp h₁)]
      · rw [if_neg h₁, if_neg (fun hc => h₁ (hiff.mpr hc)), if_pos h₂, if_pos h₂]
    · have heq := hpub m (List.mem_cons_self m t) (by simpa using h₂)
      rw [heq]

/-- C10: the Variables map of the diagnostics environment report contains
only variables from the fixed importantVars list whose value is non-empty;
every variable whose lower-cased name contains "token" or "key" is reported
as the literal "[REDACTED]"; and the report is independent of the secret
values themselves — two environments that agree on the non-sensitive
variables and on which sensitive variables are set produce identical
reports. -/
theorem collectEnvVars_redaction :
    (∀ env : String → String, ∀ n v,
      lookupKey n (collectEnvVars env) = some v →
        n ∈ importantVars ∧ env n ≠ "") ∧
    (∀ env : String → String, ∀ n v, isSensitiveVar n = true →
      lookupKey n (collectEnvVars env) = some v → v = "[REDACTED]") ∧
    (∀ env₁ env₂ : String → String,
      (∀ n ∈ importantVars, isSensitiveVar n = false → env₁ n = env₂ n) →
      (∀ n ∈ importantVars, isSensitiveVar n = true → (env₁ n = "" ↔ env₂ n = "")) →
      collectEnvVars env₁ = collectEnvVars env₂) :=
  ⟨fun env n v h => collectFrom_mem importantVars env n v h,
   fun env n v hs h => collectFrom_redacts importantVars env n v hs h,
   fun env₁ env₂ hpub hsec => collectFrom_indep importantVars env₁ env₂ hpub hsec⟩

/-- An environment whose OAuth secret reads "secret-a". -/
def envA : String → String := fun n =>
  if n = "CLAUDE_CODE_OAUTH_TOKEN" then "secret-a"
  else if n = "PATH" then "/usr/bin" else ""

/-- The same environment with the OAuth secret replaced by "secret-b". -/
def envB : String → String := fun n =>
  if n = "CLAUDE_CODE_OAUTH_TOKEN" then "secret-b"
  else if n = "PATH" then "/usr/bin" else ""

theorem collectEnvVars_redaction_witness :
    collectEnvVars envA = collectEnvVars envB :=
  collectEnvVars_redaction.2.2 envA envB (by decide) (by decide)

end Multiclaude
